import Mathlib

set_option maxRecDepth 100000

/-!
# Verification of the GST calculation engine

Shallow embedding of the GST (Goods & Services Tax) calculation core of the
LelekartHoney repository: the math primitives and the inclusive-price
breakdown calculator (`shared/utils/gst`, here from `src/unnamed/part_000`),
the Indian-numbering amount-to-words converter, the invoice aggregator
`calculateInvoiceData`, and the display-formatting helpers.

JavaScript numbers are modelled as exact rationals (`ℚ`); the repository's
arithmetic on finite values is plain field arithmetic, so every algebraic
claim is settled exactly.  `Math.round` is `⌊x + 1/2⌋` (round half toward
+∞), `Math.floor` is `⌊x⌋`.  The non-finite values `NaN`/`Infinity`, which
only matter for the display-formatting guard, are modelled separately by the
`Js.JsNum` type at the end of the file.
-/

namespace Gst

/-- JavaScript `Math.round`: round half toward positive infinity. -/
def jsRound (q : ℚ) : ℤ := ⌊q + 1/2⌋

/-! ## GST math primitives (`src/unnamed/part_000`, lines 11-50) -/

/-- `calculateGstAmount(price, gstRate) = price * gstRate / 100`. -/
def calculateGstAmount (price gstRate : ℚ) : ℚ := price * gstRate / 100

/-- `calculateBasePrice(inclusivePrice, gstRate) = inclusivePrice / (1 + gstRate / 100)`. -/
def calculateBasePrice (inclusivePrice gstRate : ℚ) : ℚ :=
  inclusivePrice / (1 + gstRate / 100)

/-- `extractGstAmount(inclusivePrice, gstRate) = inclusivePrice - basePrice`. -/
def extractGstAmount (inclusivePrice gstRate : ℚ) : ℚ :=
  inclusivePrice - calculateBasePrice inclusivePrice gstRate

/-- `calculatePriceWithGst(price, gstRate) = price + calculateGstAmount(price, gstRate)`. -/
def calculatePriceWithGst (price gstRate : ℚ) : ℚ :=
  price + calculateGstAmount price gstRate

/-! ## GST breakdown calculator (`src/unnamed/part_000`, lines 175-209) -/

/-- The record returned by `calculateGstBreakdown`. -/
structure GstBreakdown where
  taxableValue : ℚ
  gstRate : ℚ
  totalGst : ℚ
  cgst : ℚ
  cgstRate : ℚ
  sgst : ℚ
  sgstRate : ℚ
  igst : ℚ
  igstRate : ℚ
  total : ℚ
  isSameState : Bool
  deriving DecidableEq

/-- `calculateGstBreakdown(inclusivePrice, gstRate, isSameState)`.
The source initialises `cgst = sgst = igst = 0` and then overwrites either
the CGST/SGST pair (same state) or IGST (different state); the if/else
mutation is translated as conditional expressions. -/
def calculateGstBreakdown (inclusivePrice gstRate : ℚ) (isSameState : Bool) :
    GstBreakdown :=
  let basePrice := calculateBasePrice inclusivePrice gstRate
  let gstAmount := inclusivePrice - basePrice
  let cgst : ℚ := if isSameState then gstAmount / 2 else 0
  let sgst : ℚ := if isSameState then gstAmount / 2 else 0
  let igst : ℚ := if isSameState then 0 else gstAmount
  { taxableValue := basePrice
    gstRate := gstRate
    totalGst := gstAmount
    cgst := cgst
    cgstRate := if isSameState then gstRate / 2 else 0
    sgst := sgst
    sgstRate := if isSameState then gstRate / 2 else 0
    igst := igst
    igstRate := if !isSameState then gstRate else 0
    total := inclusivePrice
    isSameState := isSameState }

/-! ## Amount-to-words converter (`src/unnamed/part_000`, lines 216-322) -/

/-- The `ones` lookup table of `convertAmountToWords`. -/
def ones : List String :=
  ["", "One", "Two", "Three", "Four", "Five", "Six", "Seven", "Eight", "Nine"]

/-- The `tens` lookup table of `convertAmountToWords`. -/
def tens : List String :=
  ["", "", "Twenty", "Thirty", "Forty", "Fifty", "Sixty", "Seventy", "Eighty",
   "Ninety"]

/-- The `teens` lookup table of `convertAmountToWords`. -/
def teens : List String :=
  ["Ten", "Eleven", "Twelve", "Thirteen", "Fourteen", "Fifteen", "Sixteen",
   "Seventeen", "Eighteen", "Nineteen"]

/-- The sub-hundred branches of the source's `convertLessThanThousand`
(`n < 10`, `n < 20` and `n < 100` cases).  The source's recursive call
`convertLessThanThousand(remainder)` always has `0 < remainder < 100`, so
in that call exactly these branches run; splitting them out makes the
recursion disappear. -/
def convertLessThanHundred (n : ℕ) : String :=
  if n < 10 then ones.getD n ""
  else if n < 20 then teens.getD (n - 10) ""
  else
    let tensDigit := n / 10
    let onesDigit := n % 10
    tens.getD tensDigit "" ++ (if onesDigit > 0 then " " ++ ones.getD onesDigit "" else "")

/-- `convertLessThanThousand` from the source.  All call sites pass
nonnegative integers, hence the `ℕ` domain. -/
def convertLessThanThousand (n : ℕ) : String :=
  if n = 0 then ""
  else if n < 100 then convertLessThanHundred n
  else
    let hundreds := n / 100
    let remainder := n % 100
    ones.getD hundreds "" ++ " Hundred" ++
      (if remainder > 0 then " " ++ convertLessThanHundred remainder else "")

/-- Model of JavaScript `String.prototype.trim`: drop whitespace from both
ends (the source only ever produces ordinary spaces). -/
def jsTrim (s : String) : String :=
  ⟨((s.data.dropWhile Char.isWhitespace).reverse.dropWhile Char.isWhitespace).reverse⟩

/-- `convertToWords` from the source: Indian numbering grouping into crores,
lakhs, thousands and a 0-999 remainder. -/
def convertToWords (n : ℕ) : String :=
  if n = 0 then ""
  else
    let crores := n / 10000000
    let lakhs := (n % 10000000) / 100000
    let thousands := (n % 100000) / 1000
    let remainder := n % 1000
    let result :=
      (if crores > 0 then convertLessThanThousand crores ++ " Crore " else "") ++
      (if lakhs > 0 then convertLessThanThousand lakhs ++ " Lakh " else "") ++
      (if thousands > 0 then convertLessThanThousand thousands ++ " Thousand " else "") ++
      (if remainder > 0 then convertLessThanThousand remainder else "")
    jsTrim result

/-- `convertAmountToWords` from the source.  `rupees` and `paise` are kept
as integers exactly as computed (`Math.floor` / `Math.round`); on every
amount reached by the repository they are nonnegative and `Int.toNat` is
the identity on the values passed to `convertToWords`. -/
def convertAmountToWords (amount : ℚ) : String :=
  if amount = 0 then "Zero Only"
  else
    let roundedAmount : ℚ := (jsRound (amount * 100) : ℚ) / 100
    let rupees : ℤ := ⌊roundedAmount⌋
    let paise : ℤ := jsRound ((roundedAmount - (rupees : ℚ)) * 100)
    let r1 := convertToWords rupees.toNat
    let r2 := if r1 ≠ "" then r1 ++ " Rupee" ++ (if rupees ≠ 1 then "s" else "") else r1
    let r3 :=
      if paise > 0 then
        (if r2 ≠ "" then r2 ++ " and " else r2) ++ convertToWords paise.toNat ++ " Paise"
      else r2
    r3 ++ " Only"

/-! ## Invoice aggregator `calculateInvoiceData`
(`src/unnamed/part_000`, lines 332-417) -/

/-- A line item passed to `calculateInvoiceData`.  Optional fields
(`hsnCode`, `mrp`, `discount`) are carried through unchanged. -/
structure InvoiceItem where
  name : String
  hsnCode : Option String
  quantity : ℚ
  inclusivePrice : ℚ
  gstRate : ℚ
  mrp : Option ℚ
  discount : Option ℚ
  deriving DecidableEq

/-- The per-item record produced by the aggregator's `items.map`:
the original item spread together with its breakdown and line totals. -/
structure InvoiceItemBreakdown where
  name : String
  hsnCode : Option String
  quantity : ℚ
  inclusivePrice : ℚ
  gstRate : ℚ
  mrp : Option ℚ
  discount : Option ℚ
  taxableValue : ℚ
  gstAmount : ℚ
  cgst : ℚ
  sgst : ℚ
  igst : ℚ
  cgstRate : ℚ
  sgstRate : ℚ
  igstRate : ℚ
  total : ℚ
  lineTaxableValue : ℚ
  lineGstAmount : ℚ
  lineTotal : ℚ
  deriving DecidableEq

/-- The `totals` record of `calculateInvoiceData`. -/
structure InvoiceTotals where
  taxableValue : ℚ
  cgst : ℚ
  cgstRate : ℚ
  sgst : ℚ
  sgstRate : ℚ
  igst : ℚ
  igstRate : ℚ
  totalGst : ℚ
  grandTotal : ℚ
  amountInWords : String
  deriving DecidableEq

/-- The full return value of `calculateInvoiceData`. -/
structure InvoiceData where
  items : List InvoiceItemBreakdown
  delivery : GstBreakdown
  totals : InvoiceTotals
  isSameState : Bool
  deriving DecidableEq

/-- The body of the aggregator's `items.map` callback. -/
def itemBreakdownOf (isSameState : Bool) (item : InvoiceItem) :
    InvoiceItemBreakdown :=
  let breakdown := calculateGstBreakdown item.inclusivePrice item.gstRate isSameState
  let itemTotal := item.inclusivePrice * item.quantity
  let itemTaxableValue := breakdown.taxableValue * item.quantity
  let itemGst := breakdown.totalGst * item.quantity
  { name := item.name
    hsnCode := item.hsnCode
    quantity := item.quantity
    inclusivePrice := item.inclusivePrice
    gstRate := item.gstRate
    mrp := item.mrp
    discount := item.discount
    taxableValue := breakdown.taxableValue
    gstAmount := breakdown.totalGst
    cgst := breakdown.cgst
    sgst := breakdown.sgst
    igst := breakdown.igst
    cgstRate := breakdown.cgstRate
    sgstRate := breakdown.sgstRate
    igstRate := breakdown.igstRate
    total := item.inclusivePrice
    lineTaxableValue := itemTaxableValue
    lineGstAmount := itemGst
    lineTotal := itemTotal }

/-- `calculateInvoiceData(items, deliveryCharges, deliveryGstRate, isSameState)`:
per-item breakdowns, a delivery breakdown, and grand totals obtained by
`reduce`-style summation (translated as `List.foldl` with initial value 0). -/
def calculateInvoiceData (items : List InvoiceItem)
    (deliveryCharges deliveryGstRate : ℚ) (isSameState : Bool) : InvoiceData :=
  let itemsBreakdown := items.map (itemBreakdownOf isSameState)
  let deliveryBreakdown :=
    calculateGstBreakdown deliveryCharges deliveryGstRate isSameState
  let totalTaxableValue :=
    itemsBreakdown.foldl (fun sum item => sum + item.lineTaxableValue) 0 +
      deliveryBreakdown.taxableValue
  let totalCgst :=
    itemsBreakdown.foldl (fun sum item => sum + item.cgst * item.quantity) 0 +
      deliveryBreakdown.cgst
  let totalSgst :=
    itemsBreakdown.foldl (fun sum item => sum + item.sgst * item.quantity) 0 +
      deliveryBreakdown.sgst
  let totalIgst :=
    itemsBreakdown.foldl (fun sum item => sum + item.igst * item.quantity) 0 +
      deliveryBreakdown.igst
  let totalGst := totalCgst + totalSgst + totalIgst
  let grandTotal :=
    itemsBreakdown.foldl (fun sum item => sum + item.lineTotal) 0 + deliveryCharges
  { items := itemsBreakdown
    delivery := deliveryBreakdown
    totals :=
      { taxableValue := totalTaxableValue
        cgst := totalCgst
        cgstRate := if isSameState then deliveryGstRate / 2 else 0
        sgst := totalSgst
        sgstRate := if isSameState then deliveryGstRate / 2 else 0
        igst := totalIgst
        igstRate := if !isSameState then deliveryGstRate else 0
        totalGst := totalGst
        grandTotal := grandTotal
        amountInWords := convertAmountToWords grandTotal }
    isSameState := isSameState }

/-- Substring search on character lists (used to state that the word
"Rupee" does not occur in an output). -/
def hasSub (pat : List Char) : List Char → Bool
  | [] => pat.isEmpty
  | c :: t => pat.isPrefixOf (c :: t) || hasSub pat t

/-! ## JavaScript-number model for the display-formatting helpers
(`src/unnamed/part_000`, lines 58-112)

The formatting helpers' behaviour on non-finite input depends on the
IEEE special values, so for them JS numbers are modelled as finite
rationals extended with `NaN` and the two infinities (the `-0` special
value plays no role in these functions and is not modelled). -/

namespace Js

/-- A JavaScript number: a finite value (exact rational) or a special value. -/
inductive JsNum where
  | num (q : ℚ)
  | nan
  | inf
  | negInf
  deriving DecidableEq

/-- JS `isNaN` on a number: true exactly for `NaN`. -/
def jsIsNaN : JsNum → Bool
  | .nan => true
  | _ => false

/-- JS truthiness of a number: falsy exactly for `0` and `NaN`. -/
def jsTruthy : JsNum → Bool
  | .num q => q ≠ 0
  | .nan => false
  | _ => true

/-- JS `a || b` on numbers. -/
def jsOr (a b : JsNum) : JsNum := if jsTruthy a then a else b

/-- JS `+` with the IEEE special-value rules. -/
def jsAdd : JsNum → JsNum → JsNum
  | .nan, _ => .nan
  | _, .nan => .nan
  | .inf, .negInf => .nan
  | .negInf, .inf => .nan
  | .inf, _ => .inf
  | _, .inf => .inf
  | .negInf, _ => .negInf
  | _, .negInf => .negInf
  | .num a, .num b => .num (a + b)

/-- JS `-` with the IEEE special-value rules. -/
def jsSub : JsNum → JsNum → JsNum
  | .nan, _ => .nan
  | _, .nan => .nan
  | .inf, .inf => .nan
  | .negInf, .negInf => .nan
  | .inf, _ => .inf
  | .negInf, _ => .negInf
  | _, .inf => .negInf
  | _, .negInf => .inf
  | .num a, .num b => .num (a - b)

/-- JS `*` with the IEEE special-value rules (`±∞ * 0 = NaN`). -/
def jsMul : JsNum → JsNum → JsNum
  | .nan, _ => .nan
  | _, .nan => .nan
  | .inf, .inf => .inf
  | .inf, .negInf => .negInf
  | .negInf, .inf => .negInf
  | .negInf, .negInf => .inf
  | .inf, .num b => if 0 < b then .inf else if b < 0 then .negInf else .nan
  | .num a, .inf => if 0 < a then .inf else if a < 0 then .negInf else .nan
  | .negInf, .num b => if 0 < b then .negInf else if b < 0 then .inf else .nan
  | .num a, .negInf => if 0 < a then .negInf else if a < 0 then .inf else .nan
  | .num a, .num b => .num (a * b)

/-- JS `/` with the IEEE special-value rules (`∞/∞ = NaN`, `x/∞ = 0`,
`x/0 = ±∞` for `x ≠ 0`, `0/0 = NaN`; division by `-0` is not modelled). -/
def jsDiv : JsNum → JsNum → JsNum
  | .nan, _ => .nan
  | _, .nan => .nan
  | .inf, .inf => .nan
  | .inf, .negInf => .nan
  | .negInf, .inf => .nan
  | .negInf, .negInf => .nan
  | .inf, .num b => if b < 0 then .negInf else .inf
  | .negInf, .num b => if b < 0 then .inf else .negInf
  | .num _, .inf => .num 0
  | .num _, .negInf => .num 0
  | .num a, .num b =>
      if b = 0 then (if a = 0 then .nan else if 0 < a then .inf else .negInf)
      else .num (a / b)

/-- JS `Number.prototype.toFixed(2)`: non-finite values print as
`NaN`/`Infinity`/`-Infinity`; finite values are rounded to two decimals
(ties away from zero) and printed with exactly two fraction digits. -/
def toFixed2 : JsNum → String
  | .nan => "NaN"
  | .inf => "Infinity"
  | .negInf => "-Infinity"
  | .num q =>
      let sign := if q < 0 then "-" else ""
      let n := (⌊|q| * 100 + 1/2⌋).toNat
      sign ++ toString (n / 100) ++ "." ++
        (if n % 100 < 10 then "0" else "") ++ toString (n % 100)

/-- JS number-to-string as used for the `gstRate` interpolation.  Every
rate the repository passes is an integer; non-integer rationals (which do
not occur) fall back to the raw `ℚ` rendering. -/
def jsNumToString : JsNum → String
  | .nan => "NaN"
  | .inf => "Infinity"
  | .negInf => "-Infinity"
  | .num q => if q.den = 1 then toString q.num else toString q

/-- `calculateGstAmount` over JS numbers (`price * gstRate / 100`). -/
def calculateGstAmount (price gstRate : JsNum) : JsNum :=
  jsDiv (jsMul price gstRate) (.num 100)

/-- `calculateBasePrice` over JS numbers (`inclusivePrice / (1 + gstRate/100)`). -/
def calculateBasePrice (inclusivePrice gstRate : JsNum) : JsNum :=
  jsDiv inclusivePrice (jsAdd (.num 1) (jsDiv gstRate (.num 100)))

/-- `formatPriceWithGstBreakdown` (source lines 58-79).  The source guard
is `basePrice === undefined || isNaN(basePrice) || basePrice === null`; in
a number-typed model only the `isNaN` test remains.  The
`typeof x === "number"` checks before `toFixed` are always true. -/
def formatPriceWithGstBreakdown (basePrice gstRate : JsNum) : String :=
  if jsIsNaN basePrice then
    "₹0.00 (₹0.00 + ₹0.00 GST @ " ++ jsNumToString (jsOr gstRate (.num 0)) ++ "%)"
  else
    let gstAmount := calculateGstAmount basePrice gstRate
    let totalPrice := jsAdd basePrice gstAmount
    "₹" ++ toFixed2 totalPrice ++ " (₹" ++ toFixed2 basePrice ++ " + ₹" ++
      toFixed2 gstAmount ++ " GST @ " ++ jsNumToString gstRate ++ "%)"

/-- `formatGstInclusivePriceBreakdown` (source lines 87-112), with the same
guard treatment as `formatPriceWithGstBreakdown`. -/
def formatGstInclusivePriceBreakdown (inclusivePrice gstRate : JsNum) : String :=
  if jsIsNaN inclusivePrice then
    "₹0.00 (₹0.00 + ₹0.00 GST @ " ++ jsNumToString (jsOr gstRate (.num 0)) ++ "%)"
  else
    let basePrice := calculateBasePrice inclusivePrice gstRate
    let gstAmount := jsSub inclusivePrice basePrice
    "₹" ++ toFixed2 inclusivePrice ++ " (₹" ++ toFixed2 basePrice ++ " + ₹" ++
      toFixed2 gstAmount ++ " GST @ " ++ jsNumToString gstRate ++ "%)"

end Js

/-- The two-item, one-delivery same-state scenario of the spec's
end-to-end aggregator test. -/
def scenarioItems : List InvoiceItem :=
  [{ name := "item1", hsnCode := none, quantity := 2, inclusivePrice := 118,
     gstRate := 18, mrp := none, discount := none },
   { name := "item2", hsnCode := none, quantity := 1, inclusivePrice := 236,
     gstRate := 18, mrp := none, discount := none }]

/-- The aggregator output for the scenario: delivery `{59, 18%}`, same state. -/
def scenarioInvoice : InvoiceData := calculateInvoiceData scenarioItems 59 18 true

/-- The extracted GST amount `p - p / (1 + r/100)` is nonzero whenever the
inclusive price and the rate are both nonzero (exactly, over ℚ). -/
theorem gstAmount_ne_zero {p r : ℚ} (hp : p ≠ 0) (hr : r ≠ 0) :
    p - calculateBasePrice p r ≠ 0 := by
  unfold calculateBasePrice
  by_cases hd : (1 : ℚ) + r / 100 = 0
  · rw [hd, div_zero, sub_zero]; exact hp
  · intro h
    have h1 : p = p / (1 + r / 100) := sub_eq_zero.mp h
    have h2 : p * (1 + r / 100) = p := by
      conv_lhs => rw [h1]
      exact div_mul_cancel₀ p hd
    have h3 : p * r = 0 := by ring_nf at h2; linarith
    rcases mul_eq_zero.mp h3 with h4 | h4
    · exact hp h4
    · exact hr h4

/-- A `reduce((sum, x) => sum + f(x), 0)`-style fold is the sum of the
mapped list. -/
theorem foldl_add_map {α : Type} (f : α → ℚ) (l : List α) (a : ℚ) :
    l.foldl (fun sum x => sum + f x) a = a + (l.map f).sum := by
  induction l generalizing a with
  | nil => simp
  | cons x t ih => simp [ih, add_assoc]

/-- `Math.round` is the identity on integers. -/
theorem jsRound_intCast (n : ℤ) : jsRound ((n : ℤ) : ℚ) = n := by
  unfold jsRound
  rw [Int.floor_int_add]
  norm_num

/-- Claim C1: for every inclusive price, rate and same-state flag,
`calculateGstBreakdown` returns the record with
`taxableValue = inclusivePrice / (1 + gstRate/100)`,
`totalGst = inclusivePrice - taxableValue`, the CGST/SGST halves and zero
IGST when same-state, the full IGST and zero CGST/SGST otherwise, the
rates split accordingly, `total = inclusivePrice` and the flag echoed. -/
theorem calculateGstBreakdown_spec (p r : ℚ) (s : Bool) :
    calculateGstBreakdown p r s =
      { taxableValue := p / (1 + r / 100)
        gstRate := r
        totalGst := p - p / (1 + r / 100)
        cgst := if s then (p - p / (1 + r / 100)) / 2 else 0
        cgstRate := if s then r / 2 else 0
        sgst := if s then (p - p / (1 + r / 100)) / 2 else 0
        sgstRate := if s then r / 2 else 0
        igst := if s then 0 else p - p / (1 + r / 100)
        igstRate := if s then 0 else r
        total := p
        isSameState := s } := by
  cases s <;> rfl

/-- Claim C2: in every breakdown `cgst + sgst + igst = totalGst` (exactly,
hence within any epsilon), and for a nonzero price and nonzero rate exactly
one of the pair `{cgst, sgst}` or `{igst}` is nonzero, never both. -/
theorem gstBreakdown_split_invariant (p r : ℚ) (s : Bool) :
    ((calculateGstBreakdown p r s).cgst + (calculateGstBreakdown p r s).sgst +
        (calculateGstBreakdown p r s).igst = (calculateGstBreakdown p r s).totalGst) ∧
      (p ≠ 0 → r ≠ 0 →
        ((calculateGstBreakdown p r s).cgst ≠ 0 ∧
            (calculateGstBreakdown p r s).sgst ≠ 0 ∧
            (calculateGstBreakdown p r s).igst = 0) ∨
          ((calculateGstBreakdown p r s).igst ≠ 0 ∧
            (calculateGstBreakdown p r s).cgst = 0 ∧
            (calculateGstBreakdown p r s).sgst = 0)) := by
  cases s with
  | false =>
    refine ⟨?_, fun hp hr => Or.inr ⟨gstAmount_ne_zero hp hr, rfl, rfl⟩⟩
    show (0 : ℚ) + 0 + (p - calculateBasePrice p r) = p - calculateBasePrice p r
    ring
  | true =>
    refine ⟨?_, fun hp hr => Or.inl ⟨?_, ?_, rfl⟩⟩
    · show (p - calculateBasePrice p r) / 2 + (p - calculateBasePrice p r) / 2 + 0 =
        p - calculateBasePrice p r
      ring
    · show (p - calculateBasePrice p r) / 2 ≠ 0
      exact div_ne_zero (gstAmount_ne_zero hp hr) two_ne_zero
    · show (p - calculateBasePrice p r) / 2 ≠ 0
      exact div_ne_zero (gstAmount_ne_zero hp hr) two_ne_zero

/-- Witness for C2 at the same-state breakdown of `(118, 18%)`. -/
theorem gstBreakdown_split_invariant_witness :
    ((calculateGstBreakdown 118 18 true).cgst + (calculateGstBreakdown 118 18 true).sgst +
        (calculateGstBreakdown 118 18 true).igst =
        (calculateGstBreakdown 118 18 true).totalGst) ∧
      (((calculateGstBreakdown 118 18 true).cgst ≠ 0 ∧
          (calculateGstBreakdown 118 18 true).sgst ≠ 0 ∧
          (calculateGstBreakdown 118 18 true).igst = 0) ∨
        ((calculateGstBreakdown 118 18 true).igst ≠ 0 ∧
          (calculateGstBreakdown 118 18 true).cgst = 0 ∧
          (calculateGstBreakdown 118 18 true).sgst = 0)) :=
  ⟨(gstBreakdown_split_invariant 118 18 true).1,
   (gstBreakdown_split_invariant 118 18 true).2
     (of_decide_eq_true (by with_unfolding_all rfl))
     (of_decide_eq_true (by with_unfolding_all rfl))⟩

/-- Claim C4: for nonnegative price and rate, `calculateBasePrice` followed
by `calculatePriceWithGst` returns the original inclusive price exactly
(over the embedded exact arithmetic). -/
theorem basePrice_priceWithGst_roundTrip (p r : ℚ) (hp : 0 ≤ p) (hr : 0 ≤ r) :
    calculatePriceWithGst (calculateBasePrice p r) r = p := by
  have h1 : (0 : ℚ) < 100 + r := by linarith
  have hd : (1 : ℚ) + r / 100 ≠ 0 := by
    have : (1 : ℚ) + r / 100 = (100 + r) / 100 := by ring
    rw [this]
    exact div_ne_zero (ne_of_gt h1) (by norm_num)
  unfold calculatePriceWithGst calculateGstAmount calculateBasePrice
  field_simp
  ring

/-- Witness for C4 at `(118, 18%)`: the round trip returns 118. -/
theorem basePrice_priceWithGst_roundTrip_witness :
    (0 : ℚ) ≤ 118 ∧ (0 : ℚ) ≤ 18 ∧
      calculatePriceWithGst (calculateBasePrice 118 18) 18 = 118 :=
  ⟨of_decide_eq_true (by with_unfolding_all rfl),
   of_decide_eq_true (by with_unfolding_all rfl),
   basePrice_priceWithGst_roundTrip 118 18
     (of_decide_eq_true (by with_unfolding_all rfl))
     (of_decide_eq_true (by with_unfolding_all rfl))⟩

/-- Claim C6: in every breakdown, `taxableValue + totalGst = total` and the
`total` field is exactly the input inclusive price, with no rounding. -/
theorem breakdown_taxable_add_gst (p r : ℚ) (s : Bool) :
    ((calculateGstBreakdown p r s).taxableValue + (calculateGstBreakdown p r s).totalGst =
        (calculateGstBreakdown p r s).total) ∧
      (calculateGstBreakdown p r s).total = p := by
  refine ⟨?_, rfl⟩
  show calculateBasePrice p r + (p - calculateBasePrice p r) = p
  ring

/-- Claim C3: for the same-state order with items `{118, 18%, qty 2}` and
`{236, 18%, qty 1}` plus delivery `{59, 18%}`, the aggregator reports
`grandTotal = 118*2 + 236 + 59 = 531`,
`totalGst = round(531 - 531/1.18)` (= 81), and
`totalCgst = totalSgst = totalGst / 2`. -/
theorem invoice_scenario_totals :
    scenarioInvoice.totals.grandTotal = 118 * 2 + 236 + 59 ∧
      scenarioInvoice.totals.grandTotal = 531 ∧
      scenarioInvoice.totals.totalGst = ((jsRound ((531 : ℚ) - 531 / 1.18) : ℤ) : ℚ) ∧
      scenarioInvoice.totals.cgst = scenarioInvoice.totals.sgst ∧
      scenarioInvoice.totals.cgst = scenarioInvoice.totals.totalGst / 2 :=
  of_decide_eq_true (by with_unfolding_all rfl)

/-- Claim C5: for every item list and delivery charge, the aggregator's
output satisfies `totalGst = totalCgst + totalSgst + totalIgst`,
`grandTotal = (sum of reported line totals) + (reported delivery charge)`
and `totalTaxableValue = (sum of reported per-line taxable values) +
(reported delivery taxable value)`. -/
theorem invoice_totals_additive (items : List InvoiceItem) (d r : ℚ) (s : Bool) :
    ((calculateInvoiceData items d r s).totals.totalGst =
        (calculateInvoiceData items d r s).totals.cgst +
          (calculateInvoiceData items d r s).totals.sgst +
          (calculateInvoiceData items d r s).totals.igst) ∧
      ((calculateInvoiceData items d r s).totals.grandTotal =
        ((calculateInvoiceData items d r s).items.map (fun i => i.lineTotal)).sum +
          (calculateInvoiceData items d r s).delivery.total) ∧
      ((calculateInvoiceData items d r s).totals.taxableValue =
        ((calculateInvoiceData items d r s).items.map (fun i => i.lineTaxableValue)).sum +
          (calculateInvoiceData items d r s).delivery.taxableValue) := by
  refine ⟨rfl, ?_, ?_⟩
  · show (items.map (itemBreakdownOf s)).foldl (fun sum item => sum + item.lineTotal) 0 + d =
      ((items.map (itemBreakdownOf s)).map (fun i => i.lineTotal)).sum + d
    rw [foldl_add_map, zero_add]
  · show (items.map (itemBreakdownOf s)).foldl
        (fun sum item => sum + item.lineTaxableValue) 0 +
        (calculateGstBreakdown d r s).taxableValue =
      ((items.map (itemBreakdownOf s)).map (fun i => i.lineTaxableValue)).sum +
        (calculateGstBreakdown d r s).taxableValue
    rw [foldl_add_map, zero_add]

/-- Claim C7: the literal boundary cases of `convertAmountToWords`:
0, 1 (singular "Rupee"), 100, 1000, the "One Lakh"/"One Crore" prefixes,
and the rupees-and-paise case 100.50. -/
theorem convertAmountToWords_boundary :
    convertAmountToWords 0 = "Zero Only" ∧
      convertAmountToWords 1 = "One Rupee Only" ∧
      convertAmountToWords 100 = "One Hundred Rupees Only" ∧
      convertAmountToWords 1000 = "One Thousand Rupees Only" ∧
      List.isPrefixOf "One Lakh".data (convertAmountToWords 100000).data = true ∧
      List.isPrefixOf "One Crore".data (convertAmountToWords 10000000).data = true ∧
      convertAmountToWords (100.50 : ℚ) = "One Hundred Rupees and Fifty Paise Only" :=
  of_decide_eq_true (by with_unfolding_all rfl)

/-- Counterexample to claim C8: the amount `0.004` rounds to `0` at two
decimal places, yet `convertAmountToWords` returns `" Only"`, not
`"Zero Only"` — the source tests `amount === 0` before rounding. -/
theorem convertAmountToWords_roundedZero_cex :
    ((jsRound ((1 / 250 : ℚ) * 100) : ℤ) : ℚ) / 100 = 0 ∧
      convertAmountToWords (1 / 250) = " Only" ∧
      convertAmountToWords (1 / 250) ≠ "Zero Only" :=
  of_decide_eq_true (by with_unfolding_all rfl)

/-- Claim C8, amended: `"Zero Only"` is returned only for the exact input
`0`; any other amount whose two-decimal rounding is `0` produces the
string `" Only"` (empty words followed by the unconditional suffix). -/
theorem convertAmountToWords_roundedZero (q : ℚ) (h : jsRound (q * 100) = 0) :
    convertAmountToWords q = if q = 0 then "Zero Only" else " Only" := by
  by_cases hq : q = 0
  · simp [convertAmountToWords, hq]
  · rw [if_neg hq]
    unfold convertAmountToWords
    rw [if_neg hq, h]
    with_unfolding_all rfl

/-- Witness for the amended C8 at the amount `1/250 = 0.004`. -/
theorem convertAmountToWords_roundedZero_witness :
    jsRound ((1 / 250 : ℚ) * 100) = 0 ∧
      convertAmountToWords (1 / 250) =
        if (1 / 250 : ℚ) = 0 then "Zero Only" else " Only" :=
  ⟨of_decide_eq_true (by with_unfolding_all rfl),
   convertAmountToWords_roundedZero (1 / 250)
     (of_decide_eq_true (by with_unfolding_all rfl))⟩

/-- The word "Rupee" does not occur in any paise-only output
`convertToWords m ++ " Paise Only"` for `m < 100`. -/
theorem rupee_not_in_paise_words :
    ∀ m : ℕ, m < 100 →
      hasSub "Rupee".data ((convertToWords m ++ " Paise Only").data) = false :=
  of_decide_eq_true (by with_unfolding_all rfl)

/-- Claim C10: for every amount whose two-decimal rounding lies strictly
between 0 and 1 rupee, the output is the paise words followed by
`" Paise Only"`, and neither "Rupee" nor "Rupees" occurs anywhere in it. -/
theorem convertAmountToWords_paiseOnly (q : ℚ) (h1 : 0 < jsRound (q * 100))
    (h2 : jsRound (q * 100) < 100) :
    convertAmountToWords q =
        convertToWords (jsRound (q * 100)).toNat ++ " Paise Only" ∧
      hasSub "Rupee".data (convertAmountToWords q).data = false := by
  have hq : q ≠ 0 := by
    intro h0
    rw [h0] at h1
    have hz : jsRound ((0 : ℚ) * 100) = 0 := of_decide_eq_true (by with_unfolding_all rfl)
    rw [hz] at h1
    exact lt_irrefl 0 h1
  set n := jsRound (q * 100) with hn
  have hfloor : ⌊((n : ℤ) : ℚ) / 100⌋ = 0 := by
    rw [Int.floor_eq_zero_iff]
    constructor
    · have : (0 : ℚ) ≤ (n : ℚ) := by exact_mod_cast h1.le
      positivity
    · rw [div_lt_one (by norm_num)]
      exact_mod_cast h2
  have hpaise : jsRound ((((n : ℤ) : ℚ) / 100 - ((0 : ℤ) : ℚ)) * 100) = n := by
    rw [Int.cast_zero, sub_zero, div_mul_cancel₀ _ (by norm_num : (100 : ℚ) ≠ 0)]
    exact jsRound_intCast n
  have key : convertAmountToWords q = convertToWords n.toNat ++ " Paise Only" := by
    simp only [convertAmountToWords]
    rw [if_neg hq, ← hn, hfloor, hpaise, if_pos h1]
    have hr1 : convertToWords (0 : ℤ).toNat = "" := rfl
    rw [hr1]
    simp only [ne_eq, not_true_eq_false, if_false, String.empty_append,
      String.append_assoc]
    rfl
  refine ⟨key, ?_⟩
  rw [key]
  exact rupee_not_in_paise_words n.toNat (by omega)

/-- Witness for C10 at the amount `0.50`. -/
theorem convertAmountToWords_paiseOnly_witness :
    0 < jsRound ((1 / 2 : ℚ) * 100) ∧ jsRound ((1 / 2 : ℚ) * 100) < 100 ∧
      convertAmountToWords (1 / 2) =
        convertToWords (jsRound ((1 / 2 : ℚ) * 100)).toNat ++ " Paise Only" ∧
      hasSub "Rupee".data (convertAmountToWords (1 / 2)).data = false := by
  have h1 : 0 < jsRound ((1 / 2 : ℚ) * 100) := of_decide_eq_true (by with_unfolding_all rfl)
  have h2 : jsRound ((1 / 2 : ℚ) * 100) < 100 := of_decide_eq_true (by with_unfolding_all rfl)
  exact ⟨h1, h2, (convertAmountToWords_paiseOnly (1 / 2) h1 h2).1,
    (convertAmountToWords_paiseOnly (1 / 2) h1 h2).2⟩

/-- Counterexample to claim C9: for the non-finite input `Infinity` (at
rate 18%) neither formatting helper returns the zero-valued display
string — the `isNaN` guard does not catch infinities, and the
non-numeric values `Infinity`/`NaN` propagate into the visible text. -/
theorem format_infinity_cex :
    Js.formatGstInclusivePriceBreakdown Js.JsNum.inf (Js.JsNum.num 18) =
        "₹Infinity (₹Infinity + ₹NaN GST @ 18%)" ∧
      Js.formatPriceWithGstBreakdown Js.JsNum.inf (Js.JsNum.num 18) =
        "₹Infinity (₹Infinity + ₹Infinity GST @ 18%)" ∧
      Js.formatGstInclusivePriceBreakdown Js.JsNum.inf (Js.JsNum.num 18) ≠
        "₹0.00 (₹0.00 + ₹0.00 GST @ 18%)" ∧
      Js.formatPriceWithGstBreakdown Js.JsNum.inf (Js.JsNum.num 18) ≠
        "₹0.00 (₹0.00 + ₹0.00 GST @ 18%)" :=
  of_decide_eq_true (by with_unfolding_all rfl)

/-- Claim C9, amended: of the non-finite values only `NaN` is caught by
the guard: for a `NaN` price and any integer rate both display helpers
return the deterministic zero-valued string
`"₹0.00 (₹0.00 + ₹0.00 GST @ <rate>%)"`; the infinities are not
substituted (see the counterexample). -/
theorem format_nan_guard (k : ℤ) :
    Js.formatPriceWithGstBreakdown Js.JsNum.nan (Js.JsNum.num (k : ℚ)) =
        "₹0.00 (₹0.00 + ₹0.00 GST @ " ++ toString k ++ "%)" ∧
      Js.formatGstInclusivePriceBreakdown Js.JsNum.nan (Js.JsNum.num (k : ℚ)) =
        "₹0.00 (₹0.00 + ₹0.00 GST @ " ++ toString k ++ "%)" := by
  have hor : Js.jsNumToString (Js.jsOr (Js.JsNum.num (k : ℚ)) (Js.JsNum.num 0)) =
      toString k := by
    by_cases hk : k = 0
    · subst hk
      with_unfolding_all rfl
    · have hkq : ((k : ℚ)) ≠ 0 := Int.cast_ne_zero.mpr hk
      simp [Js.jsOr, Js.jsTruthy, hkq, Js.jsNumToString, Rat.den_intCast,
        Rat.num_intCast]
  constructor
  · show "₹0.00 (₹0.00 + ₹0.00 GST @ " ++
      Js.jsNumToString (Js.jsOr (Js.JsNum.num (k : ℚ)) (Js.JsNum.num 0)) ++ "%)" =
      "₹0.00 (₹0.00 + ₹0.00 GST @ " ++ toString k ++ "%)"
    rw [hor]
  · show "₹0.00 (₹0.00 + ₹0.00 GST @ " ++
      Js.jsNumToString (Js.jsOr (Js.JsNum.num (k : ℚ)) (Js.JsNum.num 0)) ++ "%)" =
      "₹0.00 (₹0.00 + ₹0.00 GST @ " ++ toString k ++ "%)"
    rw [hor]

end Gst
